import Mathlib

/-!
Shallow embedding of the async-locking crate (src/lib.rs, src/unix.rs,
src/windows.rs): advisory whole-file locking with owning (Lock) and
borrowing (LockRef) guards over per-OS locking primitives.

OS syscalls are modelled by oracle structures: the embedding records which
syscall is made with which arguments and branches on the oracle's answer
exactly as the source branches on the syscall's return value.
-/

namespace AsyncLocking

/-- Kinds of std::io::Error that the source inspects: unix.rs matches on
ErrorKind::WouldBlock; every other kind is opaque data here. -/
inductive ErrorKind where
  | wouldBlock
  | other (code : Int)
deriving DecidableEq, Repr

/-- Model of std::io::Error: the kind (as classified by the Rust standard
library from the OS error number) and the raw OS error number that
raw_os_error() reports (windows.rs matches on it). -/
structure IOError where
  kind : ErrorKind
  rawOsError : Option Int
deriving DecidableEq, Repr

/-- Model of std::io::Result. -/
abbrev IOResult (α : Type) := Except IOError α

/- ------------------------------------------------------------------ -/
/- src/unix.rs                                                        -/
/- ------------------------------------------------------------------ -/

namespace Unix

/-- libc flock operation LOCK_SH. -/
def LOCK_SH : Nat := 1
/-- libc flock operation LOCK_EX. -/
def LOCK_EX : Nat := 2
/-- libc flock flag LOCK_NB. -/
def LOCK_NB : Nat := 4
/-- libc flock operation LOCK_UN. -/
def LOCK_UN : Nat := 8

/-- Oracle for the unix OS: the return value of flock(fd, op) and the
std::io::Error that Error::last_os_error() yields when that call fails. -/
structure OS where
  flockRet : Int → Nat → Int
  flockErr : Int → Nat → IOError

/-- fn lock_file(file, op): calls libc::flock(file.as_raw_fd(), op);
0 means Ok(()), anything else Err(Error::last_os_error()). -/
def lock_file {F : Type} (os : OS) (asRawFd : F → Int) (file : F) (op : Nat) :
    IOResult Unit :=
  let res := os.flockRet (asRawFd file) op
  if res = 0 then Except.ok ()
  else Except.error (os.flockErr (asRawFd file) op)

/-- fn lock_shared(file): lock_file(&file, LOCK_SH)?; Ok(file). -/
def lock_shared {F : Type} (os : OS) (asRawFd : F → Int) (file : F) :
    IOResult F :=
  match lock_file os asRawFd file LOCK_SH with
  | Except.error e => Except.error e
  | Except.ok _ => Except.ok file

/-- fn lock_exclusive(file): lock_file(&file, LOCK_EX)?; Ok(file). -/
def lock_exclusive {F : Type} (os : OS) (asRawFd : F → Int) (file : F) :
    IOResult F :=
  match lock_file os asRawFd file LOCK_EX with
  | Except.error e => Except.error e
  | Except.ok _ => Except.ok file

/-- fn try_lock_shared(file): res = lock_file(file, LOCK_SH | LOCK_NB);
if Err of kind WouldBlock, return Ok(None); else res.map(Some). -/
def try_lock_shared {F : Type} (os : OS) (asRawFd : F → Int) (file : F) :
    IOResult (Option Unit) :=
  let res := lock_file os asRawFd file (LOCK_SH ||| LOCK_NB)
  match res with
  | Except.error e =>
    if e.kind = ErrorKind.wouldBlock then Except.ok none
    else Except.error e
  | Except.ok _ => Except.ok (some ())

/-- fn try_lock_exclusive(file): res = lock_file(file, LOCK_EX | LOCK_NB);
if Err of kind WouldBlock, return Ok(None); else res.map(Some). -/
def try_lock_exclusive {F : Type} (os : OS) (asRawFd : F → Int) (file : F) :
    IOResult (Option Unit) :=
  let res := lock_file os asRawFd file (LOCK_EX ||| LOCK_NB)
  match res with
  | Except.error e =>
    if e.kind = ErrorKind.wouldBlock then Except.ok none
    else Except.error e
  | Except.ok _ => Except.ok (some ())

/-- fn unlock_ref(file): lock_file(file, LOCK_UN). -/
def unlock_ref {F : Type} (os : OS) (asRawFd : F → Int) (file : F) :
    IOResult Unit :=
  lock_file os asRawFd file LOCK_UN

/-- fn unlock(file): unlock_ref(&file).map(move closure giving back file). -/
def unlock {F : Type} (os : OS) (asRawFd : F → Int) (file : F) : IOResult F :=
  Except.map (fun _ => file) (unlock_ref os asRawFd file)

end Unix

/- ------------------------------------------------------------------ -/
/- src/windows.rs                                                     -/
/- ------------------------------------------------------------------ -/

namespace Windows

/-- windows-sys LOCKFILE_EXCLUSIVE_LOCK flag. -/
def LOCKFILE_EXCLUSIVE_LOCK : Nat := 2
/-- windows-sys LOCKFILE_FAIL_IMMEDIATELY flag. -/
def LOCKFILE_FAIL_IMMEDIATELY : Nat := 1
/-- windows-sys ERROR_LOCK_VIOLATION status code. -/
def ERROR_LOCK_VIOLATION : Int := 33

/-- Argument record of one LockFileEx invocation: handle, flags, the
reserved dword, the two 32-bit length words, and the lock offset taken
from the OVERLAPPED structure (zeroed in the source, hence offset 0). -/
structure WinLockCall where
  hFile : Int
  flags : Nat
  reserved : Nat
  lenLow : Nat
  lenHigh : Nat
  offsetLow : Nat
  offsetHigh : Nat
deriving DecidableEq, Repr

/-- Argument record of one UnlockFile invocation. -/
structure WinUnlockCall where
  hFile : Int
  offsetLow : Nat
  offsetHigh : Nat
  lenLow : Nat
  lenHigh : Nat
deriving DecidableEq, Repr

/-- Oracle for the windows OS: the BOOL return of LockFileEx / UnlockFile
on a given argument record, and the error Error::last_os_error() yields
when the call returns 0. -/
structure OS where
  lockFileExRet : WinLockCall → Int
  lockFileExErr : WinLockCall → IOError
  unlockFileRet : WinUnlockCall → Int
  unlockFileErr : WinUnlockCall → IOError

/-- The LockFileEx call issued by fn lock_file(file, flags): reserved 0,
both length words !0 (all ones as u32), and a zeroed OVERLAPPED, so
lock offset 0. -/
def winLockCallOf (file : Int) (flags : Nat) : WinLockCall :=
  { hFile := file, flags := flags, reserved := 0,
    lenLow := 4294967295, lenHigh := 4294967295,
    offsetLow := 0, offsetHigh := 0 }

/-- fn lock_file(file, flags): LockFileEx(file, flags, 0, !0, !0,
&zeroed overlapped); 0 return means Err(last_os_error), else Ok(()). -/
def lock_file (os : OS) (file : Int) (flags : Nat) : IOResult Unit :=
  let ret := os.lockFileExRet (winLockCallOf file flags)
  if ret = 0 then Except.error (os.lockFileExErr (winLockCallOf file flags))
  else Except.ok ()

/-- fn lock_shared(file): lock_file(handle, 0)?; Ok(file). -/
def lock_shared {F : Type} (os : OS) (asRawHandle : F → Int) (file : F) :
    IOResult F :=
  match lock_file os (asRawHandle file) 0 with
  | Except.error e => Except.error e
  | Except.ok _ => Except.ok file

/-- fn lock_exclusive(file): lock_file(handle, LOCKFILE_EXCLUSIVE_LOCK)?;
Ok(file). -/
def lock_exclusive {F : Type} (os : OS) (asRawHandle : F → Int) (file : F) :
    IOResult F :=
  match lock_file os (asRawHandle file) LOCKFILE_EXCLUSIVE_LOCK with
  | Except.error e => Except.error e
  | Except.ok _ => Except.ok file

/-- fn try_lock_shared(file): res = lock_file(handle,
LOCKFILE_FAIL_IMMEDIATELY); if Err whose raw_os_error() is
Some(ERROR_LOCK_VIOLATION), return Ok(None); else res.map(Some). -/
def try_lock_shared {F : Type} (os : OS) (asRawHandle : F → Int) (file : F) :
    IOResult (Option Unit) :=
  let res := lock_file os (asRawHandle file) LOCKFILE_FAIL_IMMEDIATELY
  match res with
  | Except.error e =>
    match e.rawOsError with
    | some code =>
      if code = ERROR_LOCK_VIOLATION then Except.ok none
      else Except.error e
    | none => Except.error e
  | Except.ok _ => Except.ok (some ())

/-- fn try_lock_exclusive(file): res = lock_file(handle,
LOCKFILE_FAIL_IMMEDIATELY | LOCKFILE_EXCLUSIVE_LOCK); if Err whose
raw_os_error() is Some(ERROR_LOCK_VIOLATION), return Ok(None); else
res.map(Some). -/
def try_lock_exclusive {F : Type} (os : OS) (asRawHandle : F → Int)
    (file : F) : IOResult (Option Unit) :=
  let res := lock_file os (asRawHandle file)
    (LOCKFILE_FAIL_IMMEDIATELY ||| LOCKFILE_EXCLUSIVE_LOCK)
  match res with
  | Except.error e =>
    match e.rawOsError with
    | some code =>
      if code = ERROR_LOCK_VIOLATION then Except.ok none
      else Except.error e
    | none => Except.error e
  | Except.ok _ => Except.ok (some ())

/-- The UnlockFile call issued by fn unlock_ref(file): offsets 0 and 0,
both length words !0. -/
def winUnlockCallOf (file : Int) : WinUnlockCall :=
  { hFile := file, offsetLow := 0, offsetHigh := 0,
    lenLow := 4294967295, lenHigh := 4294967295 }

/-- fn unlock_ref(file): UnlockFile(handle, 0, 0, !0, !0); 0 return means
Err(last_os_error), else Ok(()). -/
def unlock_ref {F : Type} (os : OS) (asRawHandle : F → Int) (file : F) :
    IOResult Unit :=
  let ret := os.unlockFileRet (winUnlockCallOf (asRawHandle file))
  if ret = 0 then
    Except.error (os.unlockFileErr (winUnlockCallOf (asRawHandle file)))
  else Except.ok ()

/-- fn unlock(file): unlock_ref(&file).map(move closure giving back file). -/
def unlock {F : Type} (os : OS) (asRawHandle : F → Int) (file : F) :
    IOResult F :=
  Except.map (fun _ => file) (unlock_ref os asRawHandle file)

end Windows

/- ------------------------------------------------------------------ -/
/- src/lib.rs: async dispatch bridge and guards (the cfg(not(windows)) -/
/- build, which routes through the unix backend, and the tokio feature, -/
/- whose join result is unwrapped)                                      -/
/- ------------------------------------------------------------------ -/

/-- tokio JoinError: the spawned blocking task was cancelled or panicked
(worker pool shutdown, task aborted). -/
inductive JoinError where
  | cancelled
  | panicked
deriving DecidableEq, Repr

/-- spawn(closure).await: the worker evaluates the closure to a value and
the join either delivers that value or fails with a JoinError. The join
outcome is an oracle parameter. -/
def spawnAwait {α : Type} (j : Option JoinError) (v : α) : Except JoinError α :=
  match j with
  | some e => Except.error e
  | none => Except.ok v

/-- res.unwrap() on the join result. A panic has no value to continue
with; it is modelled as none, every normal continuation as some. -/
def unwrapJoin {α : Type} : Except JoinError α → Option α
  | Except.error _ => none
  | Except.ok v => some v

/-- struct Lock, the owning guard: wraps the moved-in file. -/
structure Lock (F : Type) where
  file : F
deriving DecidableEq, Repr

/-- derive(Clone) on struct Lock clones the wrapped file; the handle
type's own Clone implementation is the parameter cloneFile. -/
def Lock.clone {F : Type} (cloneFile : F → F) (l : Lock F) : Lock F :=
  { file := cloneFile l.file }

/-- struct LockRef, the borrowing guard: wraps a mutable reference to the
file; modelled by the referenced file value. -/
structure LockRef (F : Type) where
  file : F
deriving DecidableEq, Repr

/-- AsyncLockFileExt::lock_shared: spawn(move closure running
lock_shared(self)).await, then (tokio) res.unwrap(), then
res.map(Lock::new). A panic of the unwrap is the none outcome. -/
def AsyncLockFileExt.lock_shared {F : Type} (os : Unix.OS)
    (asRawFd : F → Int) (j : Option JoinError) (file : F) :
    Option (IOResult (Lock F)) :=
  match unwrapJoin (spawnAwait j (Unix.lock_shared os asRawFd file)) with
  | none => none
  | some res => some (Except.map (fun f => Lock.mk f) res)

/-- AsyncLockFileExt::lock_exclusive: spawn(move closure running
lock_exclusive(self)).await, then (tokio) res.unwrap(), then
res.map(Lock::new). -/
def AsyncLockFileExt.lock_exclusive {F : Type} (os : Unix.OS)
    (asRawFd : F → Int) (j : Option JoinError) (file : F) :
    Option (IOResult (Lock F)) :=
  match unwrapJoin (spawnAwait j (Unix.lock_exclusive os asRawFd file)) with
  | none => none
  | some res => some (Except.map (fun f => Lock.mk f) res)

/-- AsyncLockFileExt::try_lock_shared:
try_lock_shared(self).map(closure mapping the unit to LockRef::new(self)). -/
def AsyncLockFileExt.try_lock_shared {F : Type} (os : Unix.OS)
    (asRawFd : F → Int) (file : F) : IOResult (Option (LockRef F)) :=
  Except.map (fun f => f.map (fun _ => LockRef.mk file))
    (Unix.try_lock_shared os asRawFd file)

/-- AsyncLockFileExt::try_lock_exclusive:
try_lock_exclusive(self).map(closure mapping the unit to LockRef::new(self)). -/
def AsyncLockFileExt.try_lock_exclusive {F : Type} (os : Unix.OS)
    (asRawFd : F → Int) (file : F) : IOResult (Option (LockRef F)) :=
  Except.map (fun f => f.map (fun _ => LockRef.mk file))
    (Unix.try_lock_exclusive os asRawFd file)

/-- Lock::unlock: ptr::read the file out of self, spawn(move closure
running unlock(file)).await, (tokio) res.unwrap(), mem::forget(self),
return res. A panic of the unwrap is the none outcome. -/
def Lock.unlock {F : Type} (os : Unix.OS) (asRawFd : F → Int)
    (j : Option JoinError) (l : Lock F) : Option (IOResult F) :=
  unwrapJoin (spawnAwait j (Unix.unlock os asRawFd l.file))

/-- LockRef::unlock: unlock_ref(self.file)?; mem::forget(self); Ok(()). -/
def LockRef.unlock {F : Type} (os : Unix.OS) (asRawFd : F → Int)
    (l : LockRef F) : IOResult Unit :=
  match Unix.unlock_ref os asRawFd l.file with
  | Except.error e => Except.error e
  | Except.ok _ => Except.ok ()

/-- Where the handle moved into the worker closure of Lock::unlock ends
up: the closure returns unlock(file), of type Result of F; on Ok the
handle travels back to the caller inside the result, on Err the result
holds only the error, so the handle goes out of scope inside the worker
and is dropped (the descriptor is closed) there. -/
inductive HandleFate where
  | returnedToCaller
  | droppedInWorker
deriving DecidableEq, Repr

/-- The fate of the handle moved into the worker closure of Lock::unlock,
read off from the move semantics of unlock(file) (src/unix.rs line 45). -/
def Lock.unlockHandleFate {F : Type} (os : Unix.OS) (asRawFd : F → Int)
    (l : Lock F) : HandleFate :=
  match Unix.unlock os asRawFd l.file with
  | Except.ok _ => HandleFate.returnedToCaller
  | Except.error _ => HandleFate.droppedInWorker

/- ------------------------------------------------------------------ -/
/- The declared surface of trait AsyncLockFileExt (src/lib.rs 54-63)  -/
/- ------------------------------------------------------------------ -/

/-- Shared versus exclusive lock mode. -/
inductive LockMode where
  | shared
  | exclusive
deriving DecidableEq, Repr

/-- Blocking wait versus non-blocking try. -/
inductive WaitKind where
  | blockingWait
  | nonBlockingTry
deriving DecidableEq, Repr

/-- Owning (fn(self) yielding Lock) versus borrowing (fn(&mut self)
yielding LockRef) receiver form. -/
inductive GuardForm where
  | owning
  | borrowing
deriving DecidableEq, Repr

/-- One method of trait AsyncLockFileExt. -/
structure TraitMethod where
  name : String
  wait : WaitKind
  mode : LockMode
  form : GuardForm
deriving DecidableEq, Repr

/-- The four methods trait AsyncLockFileExt declares: lock_shared(self)
and lock_exclusive(self) are blocking and owning (they return
Lock of Self); try_lock_shared(&mut self) and try_lock_exclusive
(&mut self) are non-blocking and borrowing (they return LockRef). -/
def asyncLockFileExtSurface : List TraitMethod :=
  [{ name := "lock_shared", wait := WaitKind.blockingWait,
     mode := LockMode.shared, form := GuardForm.owning },
   { name := "lock_exclusive", wait := WaitKind.blockingWait,
     mode := LockMode.exclusive, form := GuardForm.owning },
   { name := "try_lock_shared", wait := WaitKind.nonBlockingTry,
     mode := LockMode.shared, form := GuardForm.borrowing },
   { name := "try_lock_exclusive", wait := WaitKind.nonBlockingTry,
     mode := LockMode.exclusive, form := GuardForm.borrowing }]

/- ------------------------------------------------------------------ -/
/- Traced guard lifecycles: syscall event lists over a stateful oracle -/
/- ------------------------------------------------------------------ -/

/-- One flock syscall as it happened: descriptor, operation, and the
return value the OS gave. -/
structure Event where
  fd : Int
  op : Nat
  ret : Int
deriving DecidableEq, Repr

/-- Stateful unix oracle: outcomes may differ from call to call, indexed
by the number of flock calls already made. -/
structure OSSeq where
  flockRet : Nat → Int → Nat → Int
  flockErr : Nat → Int → Nat → IOError

/-- Traced fn lock_file: one flock(fd, op) call, recorded as an event,
advancing the call counter. -/
def lock_fileT (os : OSSeq) (fd : Int) (op : Nat) (s : Nat) :
    IOResult Unit × Nat × List Event :=
  let ret := os.flockRet s fd op
  if ret = 0 then (Except.ok (), s + 1, [{ fd := fd, op := op, ret := ret }])
  else (Except.error (os.flockErr s fd op), s + 1,
    [{ fd := fd, op := op, ret := ret }])

/-- Traced fn unlock_ref: lock_file(file, LOCK_UN). -/
def unlock_refT (os : OSSeq) (fd : Int) (s : Nat) :
    IOResult Unit × Nat × List Event :=
  lock_fileT os fd Unix.LOCK_UN s

/-- Traced Drop for Lock: the drop glue runs drop(&mut self), whose body
is discarding unlock_ref(&self.file) (let underscore binding). -/
def LockT.dropOnly (os : OSSeq) (fd : Int) (s : Nat) :
    Unit × Nat × List Event :=
  match unlock_refT os fd s with
  | (_, s1, evs) => ((), s1, evs)

/-- Traced Drop for LockRef: same body, discarding unlock_ref(self.file). -/
def LockRefT.dropOnly (os : OSSeq) (fd : Int) (s : Nat) :
    Unit × Nat × List Event :=
  match unlock_refT os fd s with
  | (_, s1, evs) => ((), s1, evs)

/-- Traced whole lifetime of a Lock whose owner calls unlock(): the
worker runs unlock(file), which is one unlock_ref call; back on the
caller, mem::forget(self) runs unconditionally after the await, so Drop
never runs, whatever the result was. -/
def LockT.unlockThenScopeEnd (os : OSSeq) (fd : Int) (s : Nat) :
    IOResult Unit × Nat × List Event :=
  match unlock_refT os fd s with
  | (res, s1, evs) => (res, s1, evs)

/-- Traced whole lifetime of a LockRef whose holder calls unlock():
unlock_ref(self.file) with the question-mark operator, then
mem::forget(self). On Ok the forget runs and Drop never does; on Err the
question mark returns before the forget, so at scope end Drop runs and
issues unlock_ref again, discarding its result. -/
def LockRefT.unlockThenScopeEnd (os : OSSeq) (fd : Int) (s : Nat) :
    IOResult Unit × Nat × List Event :=
  match unlock_refT os fd s with
  | (Except.ok _, s1, evs) => (Except.ok (), s1, evs)
  | (Except.error e, s1, evs) =>
    match unlock_refT os fd s1 with
    | (_, s2, evs2) => (Except.error e, s2, evs ++ evs2)

/-- Traced lifetime of an original Lock and its clone, both dropped
without explicit unlock: Drop runs once per guard value. -/
def LockT.dropBoth (os : OSSeq) (fd fd2 : Int) (s : Nat) :
    Unit × Nat × List Event :=
  match LockT.dropOnly os fd s with
  | (_, s1, evs1) =>
    match LockT.dropOnly os fd2 s1 with
    | (_, s2, evs2) => ((), s2, evs1 ++ evs2)

/-- Whether an event is an OS unlock call. -/
def isUnlockCall (e : Event) : Bool :=
  e.op == Unix.LOCK_UN

/-- Whether an event is an OS unlock call that succeeded. -/
def isSuccessfulUnlock (e : Event) : Bool :=
  e.op == Unix.LOCK_UN && e.ret == 0

/-- Number of OS unlock calls in a trace. -/
def unlockCallCount (evs : List Event) : Nat :=
  (evs.filter isUnlockCall).length

/-- Number of successful OS unlock calls in a trace. -/
def successfulUnlockCount (evs : List Event) : Nat :=
  (evs.filter isSuccessfulUnlock).length

/- ------------------------------------------------------------------ -/
/- Concrete oracles for witnesses and counterexamples                 -/
/- ------------------------------------------------------------------ -/

/-- Unix oracle on which every flock call succeeds. -/
def osAllOk : Unix.OS :=
  { flockRet := fun _ _ => 0,
    flockErr := fun _ _ => { kind := ErrorKind.other 0, rawOsError := none } }

/-- Unix oracle on which every flock call fails with EBADF (errno 9). -/
def osAllFail : Unix.OS :=
  { flockRet := fun _ _ => -1,
    flockErr := fun _ _ =>
      { kind := ErrorKind.other 9, rawOsError := some 9 } }

/-- Unix oracle on which every flock call fails with EWOULDBLOCK
(errno 11, classified as ErrorKind::WouldBlock). -/
def osWouldBlock : Unix.OS :=
  { flockRet := fun _ _ => -1,
    flockErr := fun _ _ =>
      { kind := ErrorKind.wouldBlock, rawOsError := some 11 } }

/-- Stateful unix oracle on which every flock call fails with EBADF. -/
def osSeqAllFail : OSSeq :=
  { flockRet := fun _ _ _ => -1,
    flockErr := fun _ _ _ =>
      { kind := ErrorKind.other 9, rawOsError := some 9 } }

/-- Stateful unix oracle on which every flock call succeeds. -/
def osSeqAllOk : OSSeq :=
  { flockRet := fun _ _ _ => 0,
    flockErr := fun _ _ _ =>
      { kind := ErrorKind.other 0, rawOsError := none } }

/-- Windows oracle on which every call succeeds. -/
def winAllOk : Windows.OS :=
  { lockFileExRet := fun _ => 1,
    lockFileExErr := fun _ => { kind := ErrorKind.other 0, rawOsError := none },
    unlockFileRet := fun _ => 1,
    unlockFileErr := fun _ => { kind := ErrorKind.other 0, rawOsError := none } }

/-- Windows oracle on which every lock call fails with
ERROR_LOCK_VIOLATION. -/
def winLockViolation : Windows.OS :=
  { lockFileExRet := fun _ => 0,
    lockFileExErr := fun _ =>
      { kind := ErrorKind.wouldBlock, rawOsError := some 33 },
    unlockFileRet := fun _ => 1,
    unlockFileErr := fun _ => { kind := ErrorKind.other 0, rawOsError := none } }

/-- Windows oracle on which every call fails with ERROR_INVALID_HANDLE
(code 6). -/
def winAllFail : Windows.OS :=
  { lockFileExRet := fun _ => 0,
    lockFileExErr := fun _ =>
      { kind := ErrorKind.other 6, rawOsError := some 6 },
    unlockFileRet := fun _ => 0,
    unlockFileErr := fun _ =>
      { kind := ErrorKind.other 6, rawOsError := some 6 } }

/- ------------------------------------------------------------------ -/
/- Helper lemmas                                                      -/
/- ------------------------------------------------------------------ -/

theorem lock_fileT_events (os : OSSeq) (fd : Int) (op : Nat) (s : Nat) :
    (lock_fileT os fd op s).2.2 =
      [{ fd := fd, op := op, ret := os.flockRet s fd op }] := by
  unfold lock_fileT
  by_cases h : os.flockRet s fd op = 0 <;> simp [h]

theorem lock_fileT_state (os : OSSeq) (fd : Int) (op : Nat) (s : Nat) :
    (lock_fileT os fd op s).2.1 = s + 1 := by
  unfold lock_fileT
  by_cases h : os.flockRet s fd op = 0 <;> simp [h]

/-- Characterization of the three outcomes of the unix non-blocking
attempt pattern (the body shared by try_lock_shared and
try_lock_exclusive) in terms of the underlying flock call. -/
theorem unix_try_tristate_of {F : Type} (os : Unix.OS) (a : F → Int)
    (file : F) (op : Nat) (tryRes : IOResult (Option Unit))
    (hdef : tryRes =
      match Unix.lock_file os a file op with
      | Except.error e =>
        if e.kind = ErrorKind.wouldBlock then Except.ok none
        else Except.error e
      | Except.ok _ => Except.ok (some ())) :
    (tryRes = Except.ok none ↔
      ∃ e, Unix.lock_file os a file op = Except.error e ∧
        e.kind = ErrorKind.wouldBlock) ∧
    (tryRes = Except.ok (some ()) ↔
      Unix.lock_file os a file op = Except.ok ()) ∧
    ∀ e, tryRes = Except.error e ↔
      Unix.lock_file os a file op = Except.error e ∧
        ¬ e.kind = ErrorKind.wouldBlock := by
  subst hdef
  cases hc : Unix.lock_file os a file op with
  | ok u => cases u; simp
  | error e =>
    by_cases hk : e.kind = ErrorKind.wouldBlock <;> simp [hk]

/-- Characterization of the three outcomes of the windows non-blocking
attempt pattern in terms of the underlying LockFileEx call. -/
theorem win_try_tristate_of (os : Windows.OS) (hdl : Int) (flags : Nat)
    (tryRes : IOResult (Option Unit))
    (hdef : tryRes =
      match Windows.lock_file os hdl flags with
      | Except.error e =>
        match e.rawOsError with
        | some code =>
          if code = Windows.ERROR_LOCK_VIOLATION then Except.ok none
          else Except.error e
        | none => Except.error e
      | Except.ok _ => Except.ok (some ())) :
    (tryRes = Except.ok none ↔
      ∃ e, Windows.lock_file os hdl flags = Except.error e ∧
        e.rawOsError = some Windows.ERROR_LOCK_VIOLATION) ∧
    (tryRes = Except.ok (some ()) ↔
      Windows.lock_file os hdl flags = Except.ok ()) ∧
    ∀ e, tryRes = Except.error e ↔
      Windows.lock_file os hdl flags = Except.error e ∧
        ¬ e.rawOsError = some Windows.ERROR_LOCK_VIOLATION := by
  subst hdef
  cases hc : Windows.lock_file os hdl flags with
  | ok u => cases u; simp
  | error e =>
    cases hro : e.rawOsError with
    | none =>
      simp only [hro]
      refine ⟨by simp [hro], by simp, ?_⟩
      intro e2
      simp only [Except.error.injEq]
      constructor
      · rintro rfl
        exact ⟨rfl, by simp [hro]⟩
      · exact fun hx => hx.1
    | some code =>
      by_cases hk : code = Windows.ERROR_LOCK_VIOLATION <;>
        simp [hro, hk]

/- ------------------------------------------------------------------ -/
/- Claim theorems                                                     -/
/- ------------------------------------------------------------------ -/

/-- C2: on both backends, try_lock_shared and try_lock_exclusive return
Ok(None) exactly when the underlying OS call failed with the would-block
condition (ErrorKind::WouldBlock on unix, raw code ERROR_LOCK_VIOLATION
on windows), Ok(Some(())) exactly when the OS call succeeded, and Err
with the untranslated OS error exactly when the OS call failed in any
other way. -/
theorem try_lock_would_block_tristate {F : Type} (os : Unix.OS)
    (wos : Windows.OS) (a : F → Int) (file : F) :
    ((Unix.try_lock_shared os a file = Except.ok none ↔
        ∃ e, Unix.lock_file os a file (Unix.LOCK_SH ||| Unix.LOCK_NB) =
          Except.error e ∧ e.kind = ErrorKind.wouldBlock) ∧
      (Unix.try_lock_shared os a file = Except.ok (some ()) ↔
        Unix.lock_file os a file (Unix.LOCK_SH ||| Unix.LOCK_NB) =
          Except.ok ()) ∧
      ∀ e, Unix.try_lock_shared os a file = Except.error e ↔
        Unix.lock_file os a file (Unix.LOCK_SH ||| Unix.LOCK_NB) =
          Except.error e ∧ ¬ e.kind = ErrorKind.wouldBlock) ∧
    ((Unix.try_lock_exclusive os a file = Except.ok none ↔
        ∃ e, Unix.lock_file os a file (Unix.LOCK_EX ||| Unix.LOCK_NB) =
          Except.error e ∧ e.kind = ErrorKind.wouldBlock) ∧
      (Unix.try_lock_exclusive os a file = Except.ok (some ()) ↔
        Unix.lock_file os a file (Unix.LOCK_EX ||| Unix.LOCK_NB) =
          Except.ok ()) ∧
      ∀ e, Unix.try_lock_exclusive os a file = Except.error e ↔
        Unix.lock_file os a file (Unix.LOCK_EX ||| Unix.LOCK_NB) =
          Except.error e ∧ ¬ e.kind = ErrorKind.wouldBlock) ∧
    ((Windows.try_lock_shared wos a file = Except.ok none ↔
        ∃ e, Windows.lock_file wos (a file) Windows.LOCKFILE_FAIL_IMMEDIATELY =
          Except.error e ∧
          e.rawOsError = some Windows.ERROR_LOCK_VIOLATION) ∧
      (Windows.try_lock_shared wos a file = Except.ok (some ()) ↔
        Windows.lock_file wos (a file) Windows.LOCKFILE_FAIL_IMMEDIATELY =
          Except.ok ()) ∧
      ∀ e, Windows.try_lock_shared wos a file = Except.error e ↔
        Windows.lock_file wos (a file) Windows.LOCKFILE_FAIL_IMMEDIATELY =
          Except.error e ∧
          ¬ e.rawOsError = some Windows.ERROR_LOCK_VIOLATION) ∧
    ((Windows.try_lock_exclusive wos a file = Except.ok none ↔
        ∃ e, Windows.lock_file wos (a file)
            (Windows.LOCKFILE_FAIL_IMMEDIATELY |||
              Windows.LOCKFILE_EXCLUSIVE_LOCK) =
          Except.error e ∧
          e.rawOsError = some Windows.ERROR_LOCK_VIOLATION) ∧
      (Windows.try_lock_exclusive wos a file = Except.ok (some ()) ↔
        Windows.lock_file wos (a file)
            (Windows.LOCKFILE_FAIL_IMMEDIATELY |||
              Windows.LOCKFILE_EXCLUSIVE_LOCK) =
          Except.ok ()) ∧
      ∀ e, Windows.try_lock_exclusive wos a file = Except.error e ↔
        Windows.lock_file wos (a file)
            (Windows.LOCKFILE_FAIL_IMMEDIATELY |||
              Windows.LOCKFILE_EXCLUSIVE_LOCK) =
          Except.error e ∧
          ¬ e.rawOsError = some Windows.ERROR_LOCK_VIOLATION) :=
  ⟨unix_try_tristate_of os a file (Unix.LOCK_SH ||| Unix.LOCK_NB) _ rfl,
   unix_try_tristate_of os a file (Unix.LOCK_EX ||| Unix.LOCK_NB) _ rfl,
   win_try_tristate_of wos (a file) Windows.LOCKFILE_FAIL_IMMEDIATELY _ rfl,
   win_try_tristate_of wos (a file)
     (Windows.LOCKFILE_FAIL_IMMEDIATELY ||| Windows.LOCKFILE_EXCLUSIVE_LOCK)
     _ rfl⟩

/-- C4: with the dispatch facility working (no join failure), the async
lock_shared and lock_exclusive resolve to exactly the platform
primitive's result: a success is wrapped into a Lock guard and an error
is propagated unchanged. -/
theorem async_lock_propagates_platform_result {F : Type} (os : Unix.OS)
    (a : F → Int) (file : F) :
    (AsyncLockFileExt.lock_shared os a none file =
      some (Except.map (fun f => Lock.mk f) (Unix.lock_shared os a file))) ∧
    (AsyncLockFileExt.lock_exclusive os a none file =
      some (Except.map (fun f => Lock.mk f) (Unix.lock_exclusive os a file))) ∧
    (∀ f, AsyncLockFileExt.lock_shared os a none file =
        some (Except.ok (Lock.mk f)) ↔
      Unix.lock_shared os a file = Except.ok f) ∧
    (∀ e, AsyncLockFileExt.lock_shared os a none file =
        some (Except.error e) ↔
      Unix.lock_shared os a file = Except.error e) ∧
    (∀ f, AsyncLockFileExt.lock_exclusive os a none file =
        some (Except.ok (Lock.mk f)) ↔
      Unix.lock_exclusive os a file = Except.ok f) ∧
    (∀ e, AsyncLockFileExt.lock_exclusive os a none file =
        some (Except.error e) ↔
      Unix.lock_exclusive os a file = Except.error e) := by
  refine ⟨rfl, rfl, ?_, ?_, ?_, ?_⟩ <;> intro x
  · cases hc : Unix.lock_shared os a file <;>
      simp [AsyncLockFileExt.lock_shared, spawnAwait, unwrapJoin, hc,
        Except.map, Lock.mk.injEq]
  · cases hc : Unix.lock_shared os a file <;>
      simp [AsyncLockFileExt.lock_shared, spawnAwait, unwrapJoin, hc,
        Except.map]
  · cases hc : Unix.lock_exclusive os a file <;>
      simp [AsyncLockFileExt.lock_exclusive, spawnAwait, unwrapJoin, hc,
        Except.map, Lock.mk.injEq]
  · cases hc : Unix.lock_exclusive os a file <;>
      simp [AsyncLockFileExt.lock_exclusive, spawnAwait, unwrapJoin, hc,
        Except.map]

/-- C5: a failure of the blocking-execution facility itself (the join of
the spawned worker fails) makes the async lock paths and the async
unlock path panic (the none outcome, from res.unwrap()), not return a
normal Result value to the caller. -/
theorem dispatch_failure_panics_not_error {F : Type} (os : Unix.OS)
    (a : F → Int) (file : F) (e : JoinError) (l : Lock F) :
    AsyncLockFileExt.lock_shared os a (some e) file = none ∧
    AsyncLockFileExt.lock_exclusive os a (some e) file = none ∧
    Lock.unlock os a (some e) l = none :=
  ⟨rfl, rfl, rfl⟩

/-- C6: when the OS unlock call succeeds, Lock::unlock returns
Ok of the unwrapped handle and LockRef::unlock returns Ok(()); when it
fails, both return exactly the OS error. -/
theorem explicit_unlock_returns_handle_or_error {F : Type} (os : Unix.OS)
    (a : F → Int) (l : Lock F) (lr : LockRef F) :
    (∀ f, Lock.unlock os a none l = some (Except.ok f) ↔
      Unix.unlock_ref os a l.file = Except.ok () ∧ f = l.file) ∧
    (∀ e, Lock.unlock os a none l = some (Except.error e) ↔
      Unix.unlock_ref os a l.file = Except.error e) ∧
    (LockRef.unlock os a lr = Except.ok () ↔
      Unix.unlock_ref os a lr.file = Except.ok ()) ∧
    (∀ e, LockRef.unlock os a lr = Except.error e ↔
      Unix.unlock_ref os a lr.file = Except.error e) := by
  refine ⟨?_, ?_, ?_, ?_⟩
  · intro f
    cases hc : Unix.unlock_ref os a l.file with
    | ok u =>
      cases u
      simp [Lock.unlock, Unix.unlock, spawnAwait, unwrapJoin, hc,
        Except.map, eq_comm]
    | error e =>
      simp [Lock.unlock, Unix.unlock, spawnAwait, unwrapJoin, hc,
        Except.map]
  · intro e
    cases hc : Unix.unlock_ref os a l.file <;>
      simp [Lock.unlock, Unix.unlock, spawnAwait, unwrapJoin, hc,
        Except.map]
  · cases hc : Unix.unlock_ref os a lr.file with
    | ok u => cases u; simp [LockRef.unlock, hc]
    | error e => simp [LockRef.unlock, hc]
  · intro e
    cases hc : Unix.unlock_ref os a lr.file with
    | ok u => cases u; simp [LockRef.unlock, hc]
    | error e2 => simp [LockRef.unlock, hc]

/-- C1 counterexample: on an oracle on which flock fails with EBADF, a
LockRef whose holder calls unlock() issues two OS unlock calls over its
lifetime (the failed explicit call, then Drop's retry, because the
question-mark return skipped mem::forget), refuting the claim that at
most one unlock call is made even on the error path. -/
theorem lockRef_error_path_issues_two_unlock_calls :
    unlockCallCount (LockRefT.unlockThenScopeEnd osSeqAllFail 3 0).2.2 = 2 ∧
    (LockRefT.unlockThenScopeEnd osSeqAllFail 3 0).1 =
      Except.error { kind := ErrorKind.other 9, rawOsError := some 9 } :=
  ⟨rfl, rfl⟩

/-- C1 amended: the owning Lock issues at most one OS unlock call over
its lifetime whichever path is taken; the borrowing LockRef issues at
most one successful OS unlock call and never more than two calls, the
second only from Drop after a failed explicit unlock(). -/
theorem guard_at_most_one_successful_unlock (os : OSSeq) (fd : Int)
    (s : Nat) :
    unlockCallCount (LockT.unlockThenScopeEnd os fd s).2.2 ≤ 1 ∧
    unlockCallCount (LockT.dropOnly os fd s).2.2 ≤ 1 ∧
    unlockCallCount (LockRefT.dropOnly os fd s).2.2 ≤ 1 ∧
    successfulUnlockCount (LockRefT.unlockThenScopeEnd os fd s).2.2 ≤ 1 ∧
    unlockCallCount (LockRefT.unlockThenScopeEnd os fd s).2.2 ≤ 2 := by
  by_cases h : os.flockRet s fd Unix.LOCK_UN = 0 <;>
    by_cases h2 : os.flockRet (s + 1) fd Unix.LOCK_UN = 0 <;>
    simp [LockT.unlockThenScopeEnd, LockT.dropOnly, LockRefT.dropOnly,
      LockRefT.unlockThenScopeEnd, unlock_refT, lock_fileT,
      unlockCallCount, successfulUnlockCount, isUnlockCall,
      isSuccessfulUnlock, h, h2, List.filter_cons, Bool.and_eq_true,
      beq_iff_eq]

/-- C3: a guard dropped without explicit unlock issues from its Drop
exactly the call the shared unlock_ref routine makes, which is also the
call (the first and, for Lock, only call) the explicit unlock path
makes, and the Drop result discards the call's error (it is Unit). -/
theorem drop_issues_same_unlock_call_and_discards_error (os : OSSeq)
    (fd : Int) (s : Nat) :
    (LockT.dropOnly os fd s).2.2 = (unlock_refT os fd s).2.2 ∧
    (LockRefT.dropOnly os fd s).2.2 = (unlock_refT os fd s).2.2 ∧
    (LockT.unlockThenScopeEnd os fd s).2.2 = (unlock_refT os fd s).2.2 ∧
    ((LockRefT.unlockThenScopeEnd os fd s).2.2).head? =
      ((unlock_refT os fd s).2.2).head? ∧
    (LockT.dropOnly os fd s).1 = () ∧
    (LockRefT.dropOnly os fd s).1 = () := by
  by_cases h : os.flockRet s fd Unix.LOCK_UN = 0 <;>
    by_cases h2 : os.flockRet (s + 1) fd Unix.LOCK_UN = 0 <;>
    simp [LockT.unlockThenScopeEnd, LockT.dropOnly, LockRefT.dropOnly,
      LockRefT.unlockThenScopeEnd, unlock_refT, lock_fileT, h, h2]

/-- C7 counterexample: the trait AsyncLockFileExt declares exactly four
methods, no blocking operation in borrowing form and no try operation in
owning form, refuting the claim that each of the four logical
operations is available in both an owning and a borrowing form. -/
theorem no_borrowing_blocking_method :
    (asyncLockFileExtSurface.filter (fun m =>
      m.wait == WaitKind.blockingWait &&
        m.form == GuardForm.borrowing)).length = 0 ∧
    (asyncLockFileExtSurface.filter (fun m =>
      m.wait == WaitKind.nonBlockingTry &&
        m.form == GuardForm.owning)).length = 0 ∧
    asyncLockFileExtSurface.length = 4 := by
  decide

/-- C7 amended: each of the four logical lock operations is available in
exactly one form: the blocking operations in owning form (consuming the
handle, yielding Lock) and the non-blocking try operations in borrowing
form (taking a mutable reference, yielding LockRef). -/
theorem surface_one_form_per_operation :
    (∀ m ∈ asyncLockFileExtSurface,
      (m.wait = WaitKind.blockingWait ↔ m.form = GuardForm.owning)) ∧
    (∃ m ∈ asyncLockFileExtSurface,
      m.wait = WaitKind.blockingWait ∧ m.mode = LockMode.shared) ∧
    (∃ m ∈ asyncLockFileExtSurface,
      m.wait = WaitKind.blockingWait ∧ m.mode = LockMode.exclusive) ∧
    (∃ m ∈ asyncLockFileExtSurface,
      m.wait = WaitKind.nonBlockingTry ∧ m.mode = LockMode.shared) ∧
    (∃ m ∈ asyncLockFileExtSurface,
      m.wait = WaitKind.nonBlockingTry ∧ m.mode = LockMode.exclusive) ∧
    asyncLockFileExtSurface.length = 4 := by
  decide

/-- C8: every LockFileEx call the windows backend issues carries offset
0 (zeroed OVERLAPPED), reserved 0 and the maximal all-ones 32-bit
length words, and every UnlockFile call carries offsets 0 and the same
maximal length words, so locking and unlocking always cover the whole
file; none of the backend operations takes a byte-range argument. -/
theorem windows_whole_file_range (hdl : Int) (flags : Nat) :
    (Windows.winLockCallOf hdl flags).reserved = 0 ∧
    (Windows.winLockCallOf hdl flags).offsetLow = 0 ∧
    (Windows.winLockCallOf hdl flags).offsetHigh = 0 ∧
    (Windows.winLockCallOf hdl flags).lenLow = 2 ^ 32 - 1 ∧
    (Windows.winLockCallOf hdl flags).lenHigh = 2 ^ 32 - 1 ∧
    (Windows.winUnlockCallOf hdl).offsetLow = 0 ∧
    (Windows.winUnlockCallOf hdl).offsetHigh = 0 ∧
    (Windows.winUnlockCallOf hdl).lenLow = 2 ^ 32 - 1 ∧
    (Windows.winUnlockCallOf hdl).lenHigh = 2 ^ 32 - 1 := by
  refine ⟨rfl, rfl, rfl, ?_, ?_, rfl, rfl, ?_, ?_⟩ <;>
    norm_num [Windows.winLockCallOf, Windows.winUnlockCallOf]

/-- C9: Lock derives Clone (cloning the wrapped handle with the handle
type's own Clone), and dropping both the original guard and its clone
runs the drop-unlock path once each, so two OS unlock calls are issued
for the one acquisition that produced the original guard. -/
theorem lock_clone_drop_two_unlock_calls {F : Type} (cloneFile : F → F)
    (l : Lock F) (os : OSSeq) (a : F → Int) (s : Nat) :
    (Lock.clone cloneFile l).file = cloneFile l.file ∧
    unlockCallCount
      (LockT.dropBoth os (a l.file)
        (a ((Lock.clone cloneFile l).file)) s).2.2 = 2 ∧
    1 < unlockCallCount
      (LockT.dropBoth os (a l.file)
        (a ((Lock.clone cloneFile l).file)) s).2.2 := by
  refine ⟨rfl, ?_, ?_⟩ <;>
    by_cases h : os.flockRet s (a l.file) Unix.LOCK_UN = 0 <;>
    by_cases h2 :
      os.flockRet (s + 1) (a (cloneFile l.file)) Unix.LOCK_UN = 0 <;>
    simp [LockT.dropBoth, LockT.dropOnly, unlock_refT, lock_fileT,
      Lock.clone, unlockCallCount, isUnlockCall, h, h2, List.filter]

/-- C10: when the OS unlock call of Lock::unlock fails, the caller gets
only the error: the result carries no handle, and the handle that was
moved into the worker closure is dropped inside the worker. -/
theorem failed_async_unlock_loses_handle {F : Type} (os : Unix.OS)
    (a : F → Int) (l : Lock F) (e : IOError)
    (h : Unix.unlock_ref os a l.file = Except.error e) :
    Lock.unlock os a none l = some (Except.error e) ∧
    Lock.unlockHandleFate os a l = HandleFate.droppedInWorker := by
  constructor
  · simp [Lock.unlock, Unix.unlock, spawnAwait, unwrapJoin, h, Except.map]
  · simp [Lock.unlockHandleFate, Unix.unlock, h, Except.map]

/-- C10 witness: on the oracle failing every flock call with EBADF, the
hypothesis of failed_async_unlock_loses_handle holds at descriptor 3
and the conclusion follows from the theorem. -/
theorem failed_async_unlock_loses_handle_witness :
    Unix.unlock_ref osAllFail (fun n => n) (Lock.mk (3 : Int)).file =
      Except.error { kind := ErrorKind.other 9, rawOsError := some 9 } ∧
    (Lock.unlock osAllFail (fun n => n) none (Lock.mk (3 : Int)) =
      some (Except.error
        { kind := ErrorKind.other 9, rawOsError := some 9 }) ∧
    Lock.unlockHandleFate osAllFail (fun n => n) (Lock.mk (3 : Int)) =
      HandleFate.droppedInWorker) :=
  ⟨rfl,
   failed_async_unlock_loses_handle osAllFail (fun n => n)
     (Lock.mk (3 : Int))
     { kind := ErrorKind.other 9, rawOsError := some 9 } rfl⟩

end AsyncLocking
